import Mathlib

/-!
Verification of the per-frame state-management layer of the atlas renderer
(`src/renderer/atlas/common.h`): the fixed `Buffer` primitive, the
generation-tracked settings container, the soft-font sentinel-pointer
protocol of `FontFace`, the `ShapedRow` shaping result, the row cache with
scroll reuse, and the `RenderingPayload` dirty tracking.

Pointers (`IDWriteFontFace*`) are modelled as natural-number addresses with
`0` for the null pointer; machine integers are modelled as `Nat`/`Int`
(all values occurring in the verified operations stay far below any
overflow boundary, and signed overflow in the source would be undefined
behavior rather than wraparound). `f32` values are carried opaquely: no
operation verified here computes with them.
-/

set_option linter.unusedVariables false

/-- `vec2<T>` from common.h: a pair of coordinates. -/
structure vec2 (T : Type) where
  x : T
  y : T
  deriving DecidableEq, Repr

/-- `rect<T>` from common.h. -/
structure rect (T : Type) where
  left : T
  top : T
  right : T
  bottom : T
  deriving DecidableEq, Repr

/-- `rect::empty`: `(left >= right) || (top >= bottom)`. -/
def rect.empty [LinearOrder T] (r : rect T) : Bool :=
  decide (r.left ≥ r.right) || decide (r.top ≥ r.bottom)

/-- `rect::non_empty`: `(left < right) && (top < bottom)`. -/
def rect.non_empty [LinearOrder T] (r : rect T) : Bool :=
  decide (r.left < r.right) && decide (r.top < r.bottom)

/-!
## Fixed `Buffer`

`Buffer<T, Alignment>` owns a contiguous heap block of `_size` elements at
`_data` (null when no storage is held). The block is modelled as
`Option (List T)`: `none` is the null pointer, `some block` an allocated
block whose elements are the list. `allocate` (common.h:247) returns null
for size 0 and a fresh block otherwise; alignment only selects the
`operator new` overload and does not affect the values, so it is not
modelled.
-/

/-- The `_data`/`_size` fields of `Buffer<T>`. Default construction
(`Buffer() = default`) leaves `_data = nullptr`, `_size = 0`. -/
structure Buffer (T : Type) where
  _data : Option (List T) := none
  _size : Nat := 0
  deriving DecidableEq, Repr

/-- `Buffer::allocate(size)`: null for size 0, otherwise a block of `size`
elements (here: the block contents that the calling constructor writes). -/
def Buffer.allocate (size : Nat) (block : List T) : Option (List T) :=
  if size = 0 then none else some block

/-- `Buffer(size_t size)`: allocates and default-constructs `size`
elements (`std::uninitialized_default_construct_n`). -/
def Buffer.ofSize (T : Type) [Inhabited T] (size : Nat) : Buffer T :=
  { _data := Buffer.allocate size (List.replicate size default), _size := size }

/-- `Buffer(const T* data, size_t size)`: allocates and copies the `size`
source elements (`std::uninitialized_copy_n`); the source range is the
list `data`. -/
def Buffer.ofData (data : List T) : Buffer T :=
  { _data := Buffer.allocate data.length data, _size := data.length }

/-- `Buffer::data()`. -/
def Buffer.dataPtr (b : Buffer T) : Option (List T) :=
  b._data

/-- `Buffer::size()`. -/
def Buffer.size (b : Buffer T) : Nat :=
  b._size

/-- `explicit operator bool()`: `_data != nullptr`. -/
def Buffer.toBool (b : Buffer T) : Bool :=
  b._data.isSome

/-- The elements visited by iterating from `begin()` (= `_data`) to
`end()` (= `_data + _size`): the first `_size` elements of the block. -/
def Buffer.toList (b : Buffer T) : List T :=
  (b._data.getD []).take b._size

/-- `operator[](index)`: the element at `_data[index]`. -/
def Buffer.elem (b : Buffer T) (index : Nat) : Option T :=
  b._data.bind fun block => block[index]?

/-- The elements whose destructors `destroy()` runs
(`std::destroy_n(_data, _size)`). -/
def Buffer.destroyedElems (b : Buffer T) : List T :=
  (b._data.getD []).take b._size

/-- `Buffer(Buffer&& other)`: returns (destination, moved-from source).
The destination takes `other`'s pointer and size; `std::exchange` leaves
the source with `_data = nullptr`, `_size = 0`. -/
def Buffer.moveCtor (other : Buffer T) : Buffer T × Buffer T :=
  ({ _data := other._data, _size := other._size }, { _data := none, _size := 0 })

/-- `operator=(Buffer&& other)`: first `destroy()`s the destination's
elements and frees its storage, then exchanges `other`'s fields into the
destination. Returns (new destination, moved-from source, elements of the
destination that were destroyed). -/
def Buffer.moveAssign (self other : Buffer T) : Buffer T × Buffer T × List T :=
  ({ _data := other._data, _size := other._size },
    { _data := none, _size := 0 },
    self.destroyedElems)

/-- The buffers reachable through the public operations of `Buffer`:
default construction, `Buffer(size)`, `Buffer(data, size)`, move
construction and move assignment (either side of the move). -/
inductive Buffer.Reachable (T : Type) [Inhabited T] : Buffer T → Prop
  | default : Buffer.Reachable T {}
  | ofSize (size : Nat) : Buffer.Reachable T (Buffer.ofSize T size)
  | ofData (data : List T) : Buffer.Reachable T (Buffer.ofData data)
  | moveCtorDst {b : Buffer T} : Buffer.Reachable T b →
      Buffer.Reachable T (Buffer.moveCtor b).1
  | moveCtorSrc {b : Buffer T} : Buffer.Reachable T b →
      Buffer.Reachable T (Buffer.moveCtor b).2
  | moveAssignDst {d s : Buffer T} : Buffer.Reachable T d →
      Buffer.Reachable T s → Buffer.Reachable T (Buffer.moveAssign d s).1
  | moveAssignSrc {d s : Buffer T} : Buffer.Reachable T d →
      Buffer.Reachable T s → Buffer.Reachable T (Buffer.moveAssign d s).2.1

/-!
## `FontFace` and the soft-font sentinel

`IDWriteFontFace*` values are natural-number addresses: `0` is the null
pointer and `IDWriteFontFace_SoftFont` is `nullptr + 1`. Calls the handle
makes to the external object's `AddRef`/`Release` are recorded as a list
of events, so that "no reference-count operation is performed" is "the
event list is empty".
-/

/-- `#define IDWriteFontFace_SoftFont (static_cast<IDWriteFontFace*>(nullptr) + 1)`. -/
def IDWriteFontFace_SoftFont : Nat := 1

/-- One reference-count call made on the external object at address `p`. -/
inductive RCEvent where
  | addRef (p : Nat)
  | release (p : Nat)
  deriving DecidableEq, Repr

/-- The address an `RCEvent` refers to. -/
def RCEvent.ptr : RCEvent → Nat
  | .addRef p => p
  | .release p => p

/-- The `_ptr` field of `FontFace`; default construction leaves it null. -/
structure FontFace where
  _ptr : Nat := 0
  deriving DecidableEq, Repr

/-- `FontFace::get()`. -/
def FontFace.get (f : FontFace) : Nat :=
  f._ptr

/-- `FontFace::is_proper_font()`: `_ptr > IDWriteFontFace_SoftFont`. -/
def FontFace.is_proper_font (f : FontFace) : Bool :=
  decide (f._ptr > IDWriteFontFace_SoftFont)

/-- `FontFace::_addRef()`: calls `_ptr->AddRef()` only when
`is_proper_font()`. -/
def FontFace._addRef (f : FontFace) : List RCEvent :=
  if f.is_proper_font then [RCEvent.addRef f._ptr] else []

/-- `FontFace::_release()`: calls `_ptr->Release()` only when
`is_proper_font()`. -/
def FontFace._release (f : FontFace) : List RCEvent :=
  if f.is_proper_font then [RCEvent.release f._ptr] else []

/-- `FontFace::detach()`: returns `_ptr` and nulls it, without touching
the reference count. Result: (returned pointer, the handle afterwards). -/
def FontFace.detach (f : FontFace) : Nat × FontFace :=
  (f._ptr, { _ptr := 0 })

/-- `FontFace(IDWriteFontFace* ptr)`: stores the pointer, then
`_addRef()`. Result: (the handle, reference-count events performed). -/
def FontFace.fromPtr (ptr : Nat) : FontFace × List RCEvent :=
  let f : FontFace := { _ptr := ptr }
  (f, f._addRef)

/-- `FontFace(const FontFace& other)`: delegates to
`FontFace{ other.get() }`. -/
def FontFace.copyCtor (other : FontFace) : FontFace × List RCEvent :=
  FontFace.fromPtr other.get

/-- `FontFace(FontFace&& other)`: `_ptr{ other.detach() }`. Result:
(the new handle, the moved-from handle, events performed). -/
def FontFace.moveCtor (other : FontFace) : FontFace × FontFace × List RCEvent :=
  let d := other.detach
  ({ _ptr := d.1 }, d.2, [])

/-- `operator=(const FontFace& other)`: `_release(); _ptr = other.get();
_addRef();`. Result: (the reassigned handle, events in order). -/
def FontFace.copyAssign (self other : FontFace) : FontFace × List RCEvent :=
  let ev := self._release
  let self' : FontFace := { _ptr := other.get }
  (self', ev ++ self'._addRef)

/-- `operator=(FontFace&& other)`: `_release(); _ptr = other.detach();`.
Result: (the reassigned handle, the moved-from handle, events in order). -/
def FontFace.moveAssign (self other : FontFace) : FontFace × FontFace × List RCEvent :=
  let ev := self._release
  let d := other.detach
  ({ _ptr := d.1 }, d.2, ev)

/-- `~FontFace()`: `_release()`. Result: events performed. -/
def FontFace.dtor (f : FontFace) : List RCEvent :=
  f._release

/-- `FontFace::attach(IDWriteFontFace* other)`: `_release(); _ptr = other;`.
Result: (the handle afterwards, events performed). -/
def FontFace.attach (self : FontFace) (other : Nat) : FontFace × List RCEvent :=
  (⟨other⟩, self._release)

/-!
## Generation-tracked settings

`f32` values are carried opaquely as their bit patterns; no verified
operation computes with them. COM pointers held in settings
(`wil::com_ptr`) and window handles are opaque addresses.
-/

/-- Opaque carrier for `f32` values (bit pattern; never computed with). -/
def F32 : Type := Nat

/-- The zero-initialized `f32`. -/
def F32.zero : F32 := (0 : Nat)

instance : DecidableEq F32 := inferInstanceAs (DecidableEq Nat)

/-- Modelled from the spec: `til::generational<T>` (`til/generational.h`
is not under src/). It "pairs a value of type `T` with a generation number
incremented exactly when the value is mutated"; constructing it from an
explicit `til::generation_t` forces that generation, and consumers compare
the generation against a remembered last-seen generation. -/
structure Generational (T : Type) where
  generation : Nat := 0
  value : T

/-- `TargetSettings` from common.h. -/
structure TargetSettings where
  hwnd : Nat := 0
  enableTransparentBackground : Bool := false
  useSoftwareRendering : Bool := false

/-- `DWRITE_FONT_FEATURE`: an OpenType feature tag with a parameter. -/
structure DWRITE_FONT_FEATURE where
  nameTag : Nat := 0
  parameter : Nat := 0

/-- `DWRITE_FONT_AXIS_VALUE`: a variable-font axis tag with a value. -/
structure DWRITE_FONT_AXIS_VALUE where
  axisTag : Nat := 0
  value : F32 := F32.zero

/-- `DefaultAntialiasingMode = D2D1_TEXT_ANTIALIAS_MODE_CLEARTYPE` (enum
value 1). -/
def DefaultAntialiasingMode : Nat := 1

/-- `FontSettings` from common.h. -/
structure FontSettings where
  fontCollection : Nat := 0
  fontFamily : Nat := 0
  fontName : String := ""
  fontFeatures : List DWRITE_FONT_FEATURE := []
  fontAxisValues : List DWRITE_FONT_AXIS_VALUE := []
  fontSize : F32 := F32.zero
  advanceScale : F32 := F32.zero
  cellSize : vec2 Nat := { x := 0, y := 0 }
  fontWeight : Nat := 0
  baseline : Nat := 0
  descender : Nat := 0
  underlinePos : Nat := 0
  underlineWidth : Nat := 0
  strikethroughPos : Nat := 0
  strikethroughWidth : Nat := 0
  doubleUnderlinePos : vec2 Nat := { x := 0, y := 0 }
  thinLineWidth : Nat := 0
  dpi : Nat := 96
  antialiasingMode : Nat := DefaultAntialiasingMode
  softFontPattern : List Nat := []
  softFontCellSize : vec2 Int := { x := 0, y := 0 }
  softFontCenteringHint : Nat := 0

/-- `CursorSettings` from common.h. -/
structure CursorSettings where
  cursorColor : Nat := 0xffffffff
  cursorType : Nat := 0
  heightPercentage : Nat := 20

/-- `MiscellaneousSettings` from common.h. -/
structure MiscellaneousSettings where
  backgroundColor : Nat := 0
  selectionColor : Nat := 0x7fffffff
  customPixelShaderPath : String := ""
  useRetroTerminalEffect : Bool := false

/-- `Settings`: one generational wrapper per settings group plus two plain
fields. -/
structure Settings where
  target : Generational TargetSettings := { value := {} }
  font : Generational FontSettings := { value := {} }
  cursor : Generational CursorSettings := { value := {} }
  misc : Generational MiscellaneousSettings := { value := {} }
  targetSize : vec2 Nat := { x := 0, y := 0 }
  cellCount : vec2 Nat := { x := 0, y := 0 }

/-- `using GenerationalSettings = til::generational<Settings>`. -/
abbrev GenerationalSettings : Type := Generational Settings

/-- `DirtyGenerationalSettings()`: the outer wrapper and each of the four
settings groups are constructed with generation `til::generation_t{ 1 }`;
all wrapped values are default-constructed. -/
def DirtyGenerationalSettings : GenerationalSettings :=
  { generation := 1,
    value :=
      { target := { generation := 1, value := {} },
        font := { generation := 1, value := {} },
        cursor := { generation := 1, value := {} },
        misc := { generation := 1, value := {} } } }

/-!
## `ShapedRow` and `RenderingPayload`
-/

/-- `LineRendition` (declared in the buffer layer): normal, double-width
and double-height variants. -/
inductive LineRendition where
  | SingleWidth
  | DoubleWidth
  | DoubleHeightTop
  | DoubleHeightBottom
  deriving DecidableEq, Repr

/-- `FontMapping` from common.h. -/
structure FontMapping where
  fontFace : FontFace := {}
  fontEmSize : F32 := F32.zero
  glyphsFrom : Nat := 0
  glyphsTo : Nat := 0

/-- `DWRITE_GLYPH_OFFSET`: per-glyph sub-pixel offsets. -/
structure DWRITE_GLYPH_OFFSET where
  advanceOffset : F32 := F32.zero
  ascenderOffset : F32 := F32.zero

/-- `GridLineRange` from common.h; the `GridLineSet` flag set is a
bitset. -/
structure GridLineRange where
  lines : Nat := 0
  color : Nat := 0
  fromCol : Nat := 0
  toCol : Nat := 0

/-- `ShapedRow` from common.h; `til::CoordType` is a signed 32-bit
coordinate, modelled as `Int`. -/
structure ShapedRow where
  mappings : List FontMapping := []
  glyphIndices : List Nat := []
  glyphAdvances : List F32 := []
  glyphOffsets : List DWRITE_GLYPH_OFFSET := []
  colors : List Nat := []
  gridLineRanges : List GridLineRange := []
  lineRendition : LineRendition := LineRendition.SingleWidth
  selectionFrom : Nat := 0
  selectionTo : Nat := 0
  dirtyTop : Int := 0
  dirtyBottom : Int := 0

/-- `ShapedRow::clear(y, cellHeight)` from common.h: clears every
collection, resets rendition and selection, and recomputes the vertical
dirty interval. `y` and `cellHeight` are `u16` values. -/
def ShapedRow.clear (r : ShapedRow) (y cellHeight : Nat) : ShapedRow :=
  { r with
    mappings := []
    glyphIndices := []
    glyphAdvances := []
    glyphOffsets := []
    colors := []
    gridLineRanges := []
    lineRendition := LineRendition.SingleWidth
    selectionFrom := 0
    selectionTo := 0
    dirtyTop := ((y * cellHeight : Nat) : Int)
    dirtyBottom := ((y * cellHeight : Nat) : Int) + (cellHeight : Int) }

/-- The frame-state fields of `RenderingPayload`. The collaborator handles
(`d2dFactory` … `renderingParams`, the `dxgi` group) are opaque COM
addresses; the two `std::function` callbacks are not modelled (no verified
operation invokes them). `rows`/`rowsScratch` hold pointers into
`unorderedRows`, modelled as backing-slot indices. -/
structure RenderingPayload where
  d2dFactory : Nat := 0
  dwriteFactory : Nat := 0
  dwriteFactory4 : Nat := 0
  systemFontFallback : Nat := 0
  systemFontFallback1 : Nat := 0
  textAnalyzer : Nat := 0
  renderingParams : Nat := 0
  s : Generational Settings := { value := {} }
  unorderedRows : Buffer ShapedRow := {}
  rowsScratch : Buffer Nat := {}
  rows : Buffer Nat := {}
  backgroundBitmapStride : Nat := 0
  backgroundBitmap : Buffer Nat := {}
  backgroundBitmapGeneration : Nat := 1
  cursorRect : rect Nat := { left := 0, top := 0, right := 0, bottom := 0 }
  dirtyRectInPx : rect Int := { left := 0, top := 0, right := 0, bottom := 0 }
  invalidatedRows : vec2 Nat := { x := 0, y := 0 }
  scrollOffset : Int := 0

/-- `RenderingPayload::MarkAllAsDirty()` from common.h. -/
def RenderingPayload.MarkAllAsDirty (p : RenderingPayload) : RenderingPayload :=
  { p with
    dirtyRectInPx :=
      { left := 0, top := 0, right := (p.s.value.targetSize.x : Int),
        bottom := (p.s.value.targetSize.y : Int) }
    invalidatedRows := { x := 0, y := p.s.value.cellCount.y }
    scrollOffset := 0 }

/-!
## Scroll reuse
-/

/-- Modelled from the spec: the scroll-reuse step of the row cache. The
scrolling controller that performs it lives in the engine layer, not under
src/ (common.h only declares `unorderedRows`, `rowsScratch` and `rows`).
Per the spec, the new ordering is built "by copying pointers from the old
ordering shifted by `n` into `rowsScratch`, filling the newly exposed
`|n|` positions with rows drawn from the backing store that are being
recycled (their previous screen position is now out of view) and marking
exactly those recycled rows for re-shaping; then `rows` and `rowsScratch`
are swapped". `rows` is the old screen ordering as backing-slot indices;
positive `n` scrolls content up. Returns (the new ordering, the recycled
slots marked for re-shaping). -/
def scrollRows (rows : List Nat) (n : Int) : List Nat × List Nat :=
  if 0 ≤ n then
    (rows.drop (min n.toNat rows.length) ++ rows.take (min n.toNat rows.length),
      rows.take (min n.toNat rows.length))
  else
    (rows.drop (rows.length - min (-n).toNat rows.length) ++
        rows.take (rows.length - min (-n).toNat rows.length),
      rows.drop (rows.length - min (-n).toNat rows.length))

/-- A handle at or below the sentinel is not a proper font. -/
theorem FontFace.is_proper_font_eq_false {f : FontFace}
    (h : f._ptr ≤ IDWriteFontFace_SoftFont) : f.is_proper_font = false := by
  simp only [FontFace.is_proper_font, IDWriteFontFace_SoftFont] at *
  simp
  omega

/-- `_release` performs nothing at or below the sentinel. -/
theorem FontFace.release_eq_nil {f : FontFace}
    (h : f._ptr ≤ IDWriteFontFace_SoftFont) : f._release = [] := by
  simp [FontFace._release, FontFace.is_proper_font_eq_false h]

/-- `_addRef` performs nothing at or below the sentinel. -/
theorem FontFace.addRef_eq_nil {f : FontFace}
    (h : f._ptr ≤ IDWriteFontFace_SoftFont) : f._addRef = [] := by
  simp [FontFace._addRef, FontFace.is_proper_font_eq_false h]

/-- Every event `_release` emits refers to an address strictly above the
sentinel. -/
theorem FontFace.release_ptr_gt {f : FontFace} {e : RCEvent}
    (h : e ∈ f._release) : IDWriteFontFace_SoftFont < e.ptr := by
  unfold FontFace._release at h
  split at h
  · next hp =>
      simp only [List.mem_singleton] at h
      subst h
      simpa [FontFace.is_proper_font, RCEvent.ptr] using hp
  · simp at h

/-- Every event `_addRef` emits refers to an address strictly above the
sentinel. -/
theorem FontFace.addRef_ptr_gt {f : FontFace} {e : RCEvent}
    (h : e ∈ f._addRef) : IDWriteFontFace_SoftFont < e.ptr := by
  unfold FontFace._addRef at h
  split at h
  · next hp =>
      simp only [List.mem_singleton] at h
      subst h
      simpa [FontFace.is_proper_font, RCEvent.ptr] using hp
  · simp at h

/-- C10: for every `rect<T>` over any ordered element type, `empty()` and
`non_empty()` are exact logical complements. -/
theorem rect_empty_iff_not_non_empty [LinearOrder T] (r : rect T) :
    r.empty = !r.non_empty := by
  simp [rect.empty, rect.non_empty, Bool.not_and, ← decide_not, not_lt, ge_iff_le]

/-- C1: a `FontFace` whose stored pointer is null or the soft-font
sentinel performs no reference-count operation on construction from that
value, copy, move, reassignment, or destruction; every `AddRef`/`Release`
any operation performs refers to an address strictly greater than the
sentinel. -/
theorem fontface_sentinel_skips_refcount (f : FontFace) :
    (f._ptr ≤ IDWriteFontFace_SoftFont →
      (FontFace.fromPtr f._ptr).2 = [] ∧
      (FontFace.copyCtor f).2 = [] ∧
      (FontFace.moveCtor f).2.2 = [] ∧
      FontFace.dtor f = []) ∧
    (∀ g : FontFace, f._ptr ≤ IDWriteFontFace_SoftFont →
      g._ptr ≤ IDWriteFontFace_SoftFont →
      (FontFace.copyAssign f g).2 = [] ∧
      (FontFace.moveAssign f g).2.2 = [] ∧
      (FontFace.attach f g._ptr).2 = []) ∧
    (∀ (g : FontFace) (e : RCEvent),
      (e ∈ (FontFace.fromPtr f._ptr).2 ∨
        e ∈ (FontFace.copyCtor f).2 ∨
        e ∈ (FontFace.moveCtor f).2.2 ∨
        e ∈ (FontFace.copyAssign f g).2 ∨
        e ∈ (FontFace.moveAssign f g).2.2 ∨
        e ∈ FontFace.dtor f ∨
        e ∈ (FontFace.attach f g._ptr).2) →
      IDWriteFontFace_SoftFont < e.ptr) := by
  refine ⟨fun h => ?_, fun g hf hg => ?_, fun g e he => ?_⟩
  · exact ⟨FontFace.addRef_eq_nil h, FontFace.addRef_eq_nil h, rfl,
      FontFace.release_eq_nil h⟩
  · refine ⟨?_, FontFace.release_eq_nil hf, FontFace.release_eq_nil hf⟩
    simp [FontFace.copyAssign, FontFace.release_eq_nil hf,
      FontFace.addRef_eq_nil (f := { _ptr := g.get }) hg]
  · rcases he with h | h | h | h | h | h | h
    · exact FontFace.addRef_ptr_gt h
    · exact FontFace.addRef_ptr_gt h
    · simp [FontFace.moveCtor, FontFace.detach] at h
    · rcases List.mem_append.mp h with h | h
      · exact FontFace.release_ptr_gt h
      · exact FontFace.addRef_ptr_gt h
    · exact FontFace.release_ptr_gt h
    · exact FontFace.release_ptr_gt h
    · exact FontFace.release_ptr_gt h

/-- Witness for C1: a handle holding the sentinel produces no events on
copy. -/
theorem fontface_sentinel_skips_refcount_witness :
    (FontFace.copyCtor { _ptr := IDWriteFontFace_SoftFont }).2 = [] :=
  ((fontface_sentinel_skips_refcount { _ptr := IDWriteFontFace_SoftFont }).1
    (by decide)).2.1

/-- C2: `is_proper_font()` is false when the stored pointer is null or the
sentinel, and true for every pointer strictly greater than the sentinel. -/
theorem fontface_is_proper_font_spec (p : Nat) :
    ((p = 0 ∨ p = IDWriteFontFace_SoftFont) →
      FontFace.is_proper_font { _ptr := p } = false) ∧
    (IDWriteFontFace_SoftFont < p →
      FontFace.is_proper_font { _ptr := p } = true) := by
  constructor
  · rintro (rfl | rfl) <;> decide
  · intro h
    simpa [FontFace.is_proper_font] using h

/-- Witness for C2 at the concrete pointers 1 (sentinel) and 2. -/
theorem fontface_is_proper_font_spec_witness :
    FontFace.is_proper_font { _ptr := 1 } = false ∧
    FontFace.is_proper_font { _ptr := 2 } = true :=
  ⟨(fontface_is_proper_font_spec 1).1 (Or.inr (by decide)),
    (fontface_is_proper_font_spec 2).2 (by decide)⟩

/-- Witness for C10 at a concrete non-empty rectangle over `Int`. -/
theorem rect_empty_iff_not_non_empty_witness :
    ({ left := 0, top := 0, right := 3, bottom := 2 } : rect Int).empty =
      !({ left := 0, top := 0, right := 3, bottom := 2 } : rect Int).non_empty :=
  rect_empty_iff_not_non_empty { left := 0, top := 0, right := 3, bottom := 2 }

/-- C6: move construction and move assignment leave the moved-from source
with size 0 and a null data pointer, the destination holds exactly the
source's original size and data pointer, and on move assignment the
destination's previously held elements are destroyed first. -/
theorem buffer_move_semantics (T : Type) (src dst : Buffer T) :
    (Buffer.moveCtor src).1.size = src.size ∧
    (Buffer.moveCtor src).1.dataPtr = src.dataPtr ∧
    (Buffer.moveCtor src).2.size = 0 ∧
    (Buffer.moveCtor src).2.dataPtr = none ∧
    (Buffer.moveAssign dst src).1.size = src.size ∧
    (Buffer.moveAssign dst src).1.dataPtr = src.dataPtr ∧
    (Buffer.moveAssign dst src).2.1.size = 0 ∧
    (Buffer.moveAssign dst src).2.1.dataPtr = none ∧
    (Buffer.moveAssign dst src).2.2 = dst.toList := by
  refine ⟨rfl, rfl, rfl, rfl, rfl, rfl, rfl, rfl, rfl⟩

/-- Witness for C6 at a concrete two-element buffer over `Nat`. -/
theorem buffer_move_semantics_witness :
    (Buffer.moveCtor (Buffer.ofData [1, 2])).2.size = 0 :=
  (buffer_move_semantics Nat (Buffer.ofData [1, 2]) {}).2.2.1

/-- C7: for every reachable `Buffer`, `size() == 0` iff no storage is held
(`data() == nullptr`), the boolean conversion is true exactly when storage
is held, and constructing with size 0 yields an empty buffer that
allocates nothing. -/
theorem buffer_size_zero_iff_no_storage (T : Type) [Inhabited T] (b : Buffer T)
    (h : Buffer.Reachable T b) :
    (b.size = 0 ↔ b.dataPtr = none) ∧
    (b.toBool = true ↔ b.dataPtr ≠ none) ∧
    Buffer.ofSize T 0 = { _data := none, _size := 0 } := by
  refine ⟨?_, ?_, rfl⟩
  · induction h with
    | default => simp [Buffer.size, Buffer.dataPtr]
    | ofSize size =>
        cases size <;>
          simp [Buffer.size, Buffer.dataPtr, Buffer.ofSize, Buffer.allocate]
    | ofData data =>
        cases data <;>
          simp [Buffer.size, Buffer.dataPtr, Buffer.ofData, Buffer.allocate]
    | moveCtorDst hb ih => exact ih
    | moveCtorSrc hb => simp [Buffer.size, Buffer.dataPtr, Buffer.moveCtor]
    | moveAssignDst hd hs ihd ihs => exact ihs
    | moveAssignSrc hd hs ihd ihs =>
        simp [Buffer.size, Buffer.dataPtr, Buffer.moveAssign]
  · simp [Buffer.toBool, Buffer.dataPtr, Option.isSome_iff_ne_none]

/-- Witness for C7 at the concretely reachable buffer `Buffer(3)` over
`Nat`. -/
theorem buffer_size_zero_iff_no_storage_witness :
    ((Buffer.ofSize Nat 3).size = 0 ↔ (Buffer.ofSize Nat 3).dataPtr = none) :=
  (buffer_size_zero_iff_no_storage Nat (Buffer.ofSize Nat 3)
    (Buffer.Reachable.ofSize 3)).1

/-- C8: `Buffer(data, n)` has `size() == n` and iterating `begin()..end()`
visits exactly the original `n` elements in order; element `i` equals
`data[i]` for every `i < n`. -/
theorem buffer_ofData_roundtrip (T : Type) (data : List T) :
    (Buffer.ofData data).size = data.length ∧
    (Buffer.ofData data).toList = data ∧
    ∀ i : Nat, i < data.length → (Buffer.ofData data).elem i = data[i]? := by
  refine ⟨rfl, ?_, ?_⟩
  · cases data with
    | nil => simp [Buffer.ofData, Buffer.toList, Buffer.allocate]
    | cons a l => simp [Buffer.ofData, Buffer.toList, Buffer.allocate]
  · intro i hi
    cases data with
    | nil => simp at hi
    | cons a l => simp [Buffer.ofData, Buffer.elem, Buffer.allocate]

/-- Witness for C8 at `data = [10, 20, 30]`, `i = 1`. -/
theorem buffer_ofData_roundtrip_witness :
    (Buffer.ofData [10, 20, 30]).elem 1 = [10, 20, 30][1]? :=
  (buffer_ofData_roundtrip Nat [10, 20, 30]).2.2 1 (by decide)

/-- C3: after `clear(y, cellHeight)` every collection is empty, the line
rendition is single-width, the selection range is empty, and the vertical
dirty interval is `[y*cellHeight, y*cellHeight + cellHeight)`, regardless
of the row's prior state. -/
theorem shaped_row_clear_spec (r : ShapedRow) (y cellHeight : Nat) :
    (r.clear y cellHeight).mappings = [] ∧
    (r.clear y cellHeight).glyphIndices = [] ∧
    (r.clear y cellHeight).glyphAdvances = [] ∧
    (r.clear y cellHeight).glyphOffsets = [] ∧
    (r.clear y cellHeight).colors = [] ∧
    (r.clear y cellHeight).gridLineRanges = [] ∧
    (r.clear y cellHeight).lineRendition = LineRendition.SingleWidth ∧
    (r.clear y cellHeight).selectionFrom = 0 ∧
    (r.clear y cellHeight).selectionTo = 0 ∧
    (r.clear y cellHeight).dirtyTop = ((y * cellHeight : Nat) : Int) ∧
    (r.clear y cellHeight).dirtyBottom =
      (r.clear y cellHeight).dirtyTop + (cellHeight : Int) :=
  ⟨rfl, rfl, rfl, rfl, rfl, rfl, rfl, rfl, rfl, rfl, rfl⟩

/-- Witness for C3 at a concrete non-empty row, `y = 2`, `cellHeight = 16`. -/
theorem shaped_row_clear_spec_witness :
    (({ glyphIndices := [7], selectionTo := 3 } : ShapedRow).clear 2 16).dirtyTop =
      ((2 * 16 : Nat) : Int) :=
  (shaped_row_clear_spec { glyphIndices := [7], selectionTo := 3 } 2 16).2.2.2.2.2.2.2.2.2.1

/-- C4: `MarkAllAsDirty()` sets the dirty pixel rectangle to the full
target size, invalidates every row, and clears the pending scroll offset;
in particular with target size (800,600) and cell count (100,40) it
yields dirty rect {0,0,800,600}, invalidated-rows range {0,40}, and
scroll offset 0. -/
theorem payload_mark_all_as_dirty (p : RenderingPayload) :
    (p.MarkAllAsDirty.dirtyRectInPx =
        { left := 0, top := 0, right := (p.s.value.targetSize.x : Int),
          bottom := (p.s.value.targetSize.y : Int) } ∧
      p.MarkAllAsDirty.invalidatedRows = { x := 0, y := p.s.value.cellCount.y } ∧
      p.MarkAllAsDirty.scrollOffset = 0) ∧
    (({ s := { value := { targetSize := { x := 800, y := 600 },
                          cellCount := { x := 100, y := 40 } } } } :
          RenderingPayload).MarkAllAsDirty.dirtyRectInPx =
        { left := 0, top := 0, right := 800, bottom := 600 } ∧
      ({ s := { value := { targetSize := { x := 800, y := 600 },
                           cellCount := { x := 100, y := 40 } } } } :
          RenderingPayload).MarkAllAsDirty.invalidatedRows = { x := 0, y := 40 } ∧
      ({ s := { value := { targetSize := { x := 800, y := 600 },
                           cellCount := { x := 100, y := 40 } } } } :
          RenderingPayload).MarkAllAsDirty.scrollOffset = 0) :=
  ⟨⟨rfl, rfl, rfl⟩, rfl, rfl, rfl⟩

/-- Witness for C4 at the default-constructed payload. -/
theorem payload_mark_all_as_dirty_witness :
    (({} : RenderingPayload).MarkAllAsDirty).scrollOffset = 0 :=
  (payload_mark_all_as_dirty {}).1.2.2

/-- C9: `DirtyGenerationalSettings()` has generation 1 for the outer
wrapper and all four settings groups, a fresh `RenderingPayload` has
`backgroundBitmapGeneration` 1, and each of these compares unequal to a
never-observed last-seen generation of 0. -/
theorem dirty_settings_first_frame_changed :
    DirtyGenerationalSettings.generation = 1 ∧
    DirtyGenerationalSettings.value.target.generation = 1 ∧
    DirtyGenerationalSettings.value.font.generation = 1 ∧
    DirtyGenerationalSettings.value.cursor.generation = 1 ∧
    DirtyGenerationalSettings.value.misc.generation = 1 ∧
    ({} : RenderingPayload).backgroundBitmapGeneration = 1 ∧
    DirtyGenerationalSettings.generation ≠ 0 ∧
    DirtyGenerationalSettings.value.target.generation ≠ 0 ∧
    DirtyGenerationalSettings.value.font.generation ≠ 0 ∧
    DirtyGenerationalSettings.value.cursor.generation ≠ 0 ∧
    DirtyGenerationalSettings.value.misc.generation ≠ 0 ∧
    ({} : RenderingPayload).backgroundBitmapGeneration ≠ 0 := by
  refine ⟨rfl, rfl, rfl, rfl, rfl, rfl, ?_, ?_, ?_, ?_, ?_, ?_⟩ <;> decide

/-- C5: scroll reuse. On a pure vertical scroll: the concrete scenario
`[A,B,C,D]` (slots 0..3) scrolled by +1 yields ordering `[B,C,D,X]` with
`X` the recycled slot 0 and exactly slot 0 marked for re-shaping; in
general the new ordering is a permutation of the old (so a duplicate-free
ordering stays duplicate-free: no slot referenced twice), exactly
`min |n| count` slots are marked for re-shaping, every marked slot comes
from the old ordering, and every surviving screen position `i` holds the
old row shifted by `n`. -/
theorem scroll_reuse_spec (rows : List Nat) (n : Int) :
    scrollRows [0, 1, 2, 3] 1 = ([1, 2, 3, 0], [0]) ∧
    (scrollRows rows n).1.Perm rows ∧
    (rows.Nodup → (scrollRows rows n).1.Nodup) ∧
    (scrollRows rows n).2.length = min n.natAbs rows.length ∧
    (∀ s ∈ (scrollRows rows n).2, s ∈ rows) ∧
    (0 ≤ n → ∀ i : Nat, i + n.toNat < rows.length →
      (scrollRows rows n).1[i]? = rows[i + n.toNat]?) := by
  have hperm : ∀ (l : List Nat) (k : Nat), (l.drop k ++ l.take k).Perm l :=
    fun l k => (List.perm_append_comm).trans (by rw [List.take_append_drop])
  have hfst : ∃ j : Nat, (scrollRows rows n).1 = rows.drop j ++ rows.take j := by
    unfold scrollRows
    split
    · exact ⟨min n.toNat rows.length, rfl⟩
    · exact ⟨rows.length - min (-n).toNat rows.length, rfl⟩
  obtain ⟨j, hj⟩ := hfst
  refine ⟨by decide, ?_, ?_, ?_, ?_, ?_⟩
  · rw [hj]
    exact hperm rows j
  · intro hnd
    rw [hj]
    exact (hperm rows j).nodup_iff.mpr hnd
  · unfold scrollRows
    split
    · next h =>
        rw [List.length_take]
        omega
    · next h =>
        rw [List.length_drop]
        omega
  · intro s hs
    unfold scrollRows at hs
    split at hs
    · exact List.mem_of_mem_take hs
    · exact List.mem_of_mem_drop hs
  · intro hn i hi
    unfold scrollRows
    rw [if_pos hn]
    have hk : min n.toNat rows.length = n.toNat := by omega
    rw [hk]
    rw [List.getElem?_append_left (by rw [List.length_drop]; omega)]
    rw [List.getElem?_drop]
    congr 1
    omega

/-- Witness for C5 at the concrete cache `[0, 1, 2, 3]` scrolled by +1. -/
theorem scroll_reuse_spec_witness :
    (scrollRows [0, 1, 2, 3] 1).1.Nodup ∧
    (0 : Nat) ∈ [0, 1, 2, 3] ∧
    (scrollRows [0, 1, 2, 3] 1).1[0]? = [0, 1, 2, 3][0 + (1 : Int).toNat]? :=
  ⟨(scroll_reuse_spec [0, 1, 2, 3] 1).2.2.1 (by decide),
    (scroll_reuse_spec [0, 1, 2, 3] 1).2.2.2.2.1 0 (by decide),
    (scroll_reuse_spec [0, 1, 2, 3] 1).2.2.2.2.2 (by decide) 0 (by decide)⟩
